import Mathlib

/-!
Verification of the turn-taking and barge-in controller of the realtime
voice-agent repository (src/server.py, src/voice_handler.py).

The Python code is embedded shallowly: pure fragments become Lean functions,
the stateful per-call controller becomes an explicit step function on a
call-state record, and the cooperative scheduling of the interrupt path is
modelled by an explicit interleaving schedule.  Machine bytes are `Nat`
values below 256; conversation-history entries are role/content pairs.
-/

namespace VoiceAgent

/-- Python `str.strip()`: drop whitespace from both ends (the inputs here are
ASCII, where Char.isWhitespace agrees with Python). -/
def pyStrip (s : String) : String :=
  ⟨((s.data.dropWhile Char.isWhitespace).reverse.dropWhile Char.isWhitespace).reverse⟩

/-- Index of the first occurrence of `pat` in `l` (offset by `i`), as in
Python `str.find`, but returning `none` instead of -1. -/
def strFindAux (pat : List Char) : List Char → Nat → Option Nat
  | [], i => if pat.isEmpty then some i else none
  | c :: rest, i =>
      if pat.isPrefixOf (c :: rest) then some i
      else strFindAux pat rest (i + 1)

/-- Python `text.find(pat)` as an `Option Nat` (indices are characters, as in
Python strings). -/
def strFind (text pat : String) : Option Nat :=
  strFindAux pat.data text.data 0

/-!
## Voice-activity detection (server.py lines 31-50 and 307-325)
-/

/-- The mu-law decode table `_MULAW_DECODE` (server.py lines 31-39):
`~i & 0xFF` equals `255 - i` for a byte, the magnitude is built from the
mantissa and exponent fields, and the sign bit negates. -/
def MULAW_DECODE (b : Nat) : Int :=
  let v : Nat := 255 - b % 256
  let sign : Nat := v &&& 0x80
  let exp : Nat := (v >>> 4) &&& 0x07
  let man : Nat := v &&& 0x0F
  let mag : Int := ((((man <<< 3) + 0x84) <<< exp : Nat) : Int) - 0x84
  if sign ≠ 0 then -mag else mag

/-- `_VAD_THRESHOLD = 500` (server.py line 41). -/
def VAD_THRESHOLD : Nat := 500

/-- `_VAD_FRAMES_REQUIRED = 3` (server.py line 42). -/
def VAD_FRAMES_REQUIRED : Nat := 3

/-- Sum of squares of the decoded linear samples of a frame, the quantity
under the square root in `_audio_rms` (server.py lines 45-50). -/
def sq_sum (data : List Nat) : Int :=
  (data.map fun b => MULAW_DECODE b ^ 2).sum

/-- The comparison `_audio_rms(data) > _VAD_THRESHOLD` (server.py line 314).
For a nonempty frame, `sqrt(sq_sum/len) > 500` holds exactly when
`sq_sum > 500^2 * len`; an empty frame has RMS 0, below the threshold. -/
def audio_rms_exceeds (data : List Nat) : Bool :=
  if data.isEmpty then false
  else decide (sq_sum data > (VAD_THRESHOLD : Int) ^ 2 * data.length)

/-- The VAD state carried by `receive_audio`: the `is_agent_speaking` flag and
the consecutive high-energy frame counter `vad_frames`. -/
structure VadState where
  speaking : Bool
  frames : Nat
  deriving DecidableEq, Repr

/-- One inbound `media` frame through the VAD block of `receive_audio`
(server.py lines 312-325).  Returns the new state and whether a speech-onset
signal fired (on firing the code clears the Twilio buffer, sets
`speech_detected`, sets `is_agent_speaking = False` and zeroes the counter). -/
def vadStep (s : VadState) (frame : List Nat) : VadState × Bool :=
  if s.speaking then
    if audio_rms_exceeds frame then
      let f := s.frames + 1
      if f ≥ VAD_FRAMES_REQUIRED then ({ speaking := false, frames := 0 }, true)
      else ({ s with frames := f }, false)
    else ({ s with frames := 0 }, false)
  else ({ s with frames := 0 }, false)

/-!
## Text flushing to the synthesis session
(server.py `_process_with_input_streaming` lines 623-648 and
`_process_with_sentence_buffering` / `_find_sentence_boundary` lines 664-701)
-/

/-- The boundary patterns tried by `_find_sentence_boundary`, in source order. -/
def sentence_boundary_puncts : List String := [". ", "! ", "? ", ".\n", "!\n", "?\n"]

/-- `_find_sentence_boundary` (server.py 691-701): the patterns are tried in
list order and the first pattern present anywhere in the text wins (even when
another pattern occurs earlier in the text); the result is the index just past
the pattern, `none` standing for Python -1. -/
def find_sentence_boundary (text : String) : Option Nat :=
  (sentence_boundary_puncts.filterMap fun p => (strFind text p).map (· + p.length)).head?

/-- The `while True` loop of `_process_with_sentence_buffering` (server.py
672-679): repeatedly split off the text before the first boundary, strip it,
and emit it when nonempty; returns the emitted sentences and the remaining
buffer.  The recursion is bounded by an explicit iteration budget so that it
is structural: a boundary is the end of a two-character pattern occurring
inside the buffer, so every iteration removes at least two characters and the
budget `buf.length` used by `drainSentences` below is never exhausted before
the boundary search fails. -/
def drainSentencesFuel : Nat → List Char → List String × List Char
  | 0, buf => ([], buf)
  | fuel + 1, buf =>
      match find_sentence_boundary ⟨buf⟩ with
      | none => ([], buf)
      | some b =>
          let sentence := pyStrip ⟨buf.take b⟩
          let (more, rest) := drainSentencesFuel fuel (buf.drop b)
          ((if sentence = "" then more else sentence :: more), rest)

def drainSentences (buf : List Char) : List String × List Char :=
  drainSentencesFuel buf.length buf

/-- One event from the agent stream, as consumed by the response pipeline:
a text increment, a resolved tool invocation, or the spoken error apology. -/
inductive AgentChunk
  | text (s : String)
  | toolCall (name : String)
  | error (s : String)
  deriving DecidableEq, Repr

/-- The characters whose presence triggers a flush on the input-streaming
path: `.,!?;:\n` (server.py line 631). -/
def flush_puncts : List Char := ['.', ',', '!', '?', ';', ':', '\n']

/-- Buffer discipline of the agent-stream loop of
`_process_with_input_streaming` (server.py 623-643): text increments
accumulate in `text_buffer`, which is submitted to `tts_stream.send_text`
once it contains any character of `flush_puncts` or reaches 15 characters; a
tool invocation flushes a nonempty buffer; an error chunk is submitted
directly (send_text ignores empty text).  Returns the new buffer and the
submissions made for this chunk.  (The `aborted` early-exit belongs to the
speculative-extension guard, modelled separately by
`send_audio_guarded_run`.) -/
def streamStep (buf : String) (c : AgentChunk) : String × List String :=
  match c with
  | .text s =>
      let b := buf ++ s
      let hasPunct := b.data.any fun ch => flush_puncts.contains ch
      if hasPunct || 15 ≤ b.length then ("", [b]) else (b, [])
  | .toolCall _ => if buf = "" then (buf, []) else ("", [buf])
  | .error s => (buf, if s = "" then [] else [s])

/-- All text submissions sent to the synthesis session on the input-streaming
path, including the final flush of a nonempty remainder before the
end-of-input signal (server.py 645-648). -/
def streamSubmissionsAux : String → List AgentChunk → List String
  | buf, [] => if buf = "" then [] else [buf]
  | buf, c :: rest =>
      let (b, out) := streamStep buf c
      out ++ streamSubmissionsAux b rest

def streamSubmissions (chunks : List AgentChunk) : List String :=
  streamSubmissionsAux "" chunks

/-- One agent chunk through `_process_with_sentence_buffering` (server.py
664-685): text accumulates in `sentence_buffer` and complete sentences are
synthesized; tool invocations flush nothing; error chunks are synthesized
directly. -/
def sentenceStep (buf : List Char) (c : AgentChunk) : List Char × List String :=
  match c with
  | .text s =>
      let (out, rest) := drainSentences (buf ++ s.data)
      (rest, out)
  | .toolCall _ => (buf, [])
  | .error s => (buf, [s])

/-- All text submissions synthesized on the REST fallback path, including the
stripped nonempty remainder at end of stream (server.py 687-688). -/
def sentenceSubmissionsAux : List Char → List AgentChunk → List String
  | buf, [] => if pyStrip ⟨buf⟩ = "" then [] else [pyStrip ⟨buf⟩]
  | buf, c :: rest =>
      let (b, out) := sentenceStep buf c
      out ++ sentenceSubmissionsAux b rest

def sentenceSubmissions (chunks : List AgentChunk) : List String :=
  sentenceSubmissionsAux [] chunks

/-!
## Speculative-extension guard and the response pipeline
(server.py `send_audio_guarded` lines 408-427 and `do_full_response` lines
429-459, with `_TranscriptExtended` line 592)
-/

/-- One conversation-history entry: a role plus content (content may also be
a structured tool invocation or tool result; only its presence matters for
the checkpoint/rollback claims). -/
structure Entry where
  role : String
  content : String
  deriving DecidableEq, Repr

/-- Outcome of forwarding the audio chunks of a turn through `send_audio_guarded`
(server.py 414-427): before the first chunk is sent the transcript queue is
drained, collecting the parts whose `strip()` is nonempty; when any were
collected, `_TranscriptExtended` is raised before any audio reaches Twilio. -/
inductive GuardOutcome
  | extended (extraParts : List String)
  | sent (chunks : List Nat)
  deriving DecidableEq, Repr

/-- Run of the guarded sender over the chunks of a turn, with
`queue` the final-transcript fragments already queued at the moment the first
chunk is about to be sent.  After the first chunk, `audio_started` is true
and no further check happens. -/
def send_audio_guarded_run (queue : List String) (chunks : List Nat) :
    GuardOutcome :=
  match chunks with
  | [] => .sent []
  | c :: rest =>
      let extraParts := queue.filter fun p => pyStrip p ≠ ""
      if extraParts.isEmpty then .sent (c :: rest) else .extended extraParts

/-- External behaviour of one attempt of the response pipeline: the agent and
synthesis collaborators, given an utterance, append history entries
(`ai_agent.process_message` appends the user turn and the assistant/tool
turns) and produce a stream of audio chunks.  `wsClosedAfter = some e` means
the synthesis socket closes mid-stream (`WsClosedError`) after `e` was
appended to the history. -/
structure PipelineEnv where
  reply : String → List Entry × List Nat
  queueAtFirstAudio : List String
  wsClosedAfter : Option (List Entry)

/-- Result of `do_full_response`: the final conversation history, the audio
chunks forwarded to Twilio, the utterance that produced the committed reply,
and the synthesis session that produced it (sessions are numbered; closing
the current stream and connecting a replacement yields the next number). -/
structure TurnResult where
  history : List Entry
  audioSent : List Nat
  utterance : String
  session : Nat
  deriving DecidableEq, Repr

/-- `do_full_response` (server.py 429-459).  The body runs
`_process_with_input_streaming` with the guarded sender; on
`_TranscriptExtended` it truncates the history to the pre-turn checkpoint,
merges the collected fragments onto the utterance with single spaces, closes
the synthesis stream, connects a fresh one and reruns once with the plain
(unguarded) sender; on `WsClosedError` it truncates to the checkpoint,
connects a fresh stream and reruns the same utterance from the start.
(Audio already sent before a mid-stream socket failure is not tracked here;
`audioSent` reports the committed attempt.) -/
def do_full_response (env : PipelineEnv) (history : List Entry)
    (transcript : String) (session : Nat) : TurnResult :=
  let checkpoint := history.length
  match env.wsClosedAfter with
  | some brokenEntries =>
      let (e2, c2) := env.reply transcript
      { history := ((history ++ brokenEntries).take checkpoint) ++ e2,
        audioSent := c2, utterance := transcript, session := session + 1 }
  | none =>
      let (e1, c1) := env.reply transcript
      match send_audio_guarded_run env.queueAtFirstAudio c1 with
      | .sent out =>
          { history := history ++ e1, audioSent := out,
            utterance := transcript, session := session }
      | .extended parts =>
          let merged := transcript ++ " " ++ String.intercalate " " parts
          let (e2, c2) := env.reply merged
          { history := ((history ++ e1).take checkpoint) ++ e2,
            audioSent := c2, utterance := merged, session := session + 1 }

/-!
## The turn controller (server.py `process_speech` lines 348-566)
-/

/-- Events the session sends on the outbound Twilio channel.  Mark names are
numbered per call: number 0 stands for the name `greeting_end` and number `n`
(n ≥ 1) for `response_end_n` (server.py lines 305 and 529-530); `media`
carries an audio chunk (used in the cancellation model below). -/
inductive TwilioEvent
  | media (chunk : Nat)
  | clear
  | mark (id : Nat)
  deriving DecidableEq, Repr

/-- The mark numbers of an outbound trace, in emission order. -/
def marksOf (evs : List TwilioEvent) : List Nat :=
  evs.filterMap fun e => match e with | .mark n => some n | _ => none

/-- Per-call controller state: the conversation history, the
`is_agent_speaking` flag, the `response_counter`, and the outbound events
emitted so far. -/
structure CallState where
  history : List Entry
  speaking : Bool
  counter : Nat
  events : List TwilioEvent
  deriving DecidableEq, Repr

/-- How the race of the response task against the onset signal resolves
(server.py 471-506): either the onset strictly precedes completion of the
pipeline task (`interrupted`, with the entries the pipeline had appended so
far), or the pipeline task completes (`completed`, with the appended entries
and whether an onset signal became ready in the same scheduling instant). -/
inductive RaceOutcome
  | interrupted (appended : List Entry)
  | completed (appended : List Entry) (onsetSimul : Bool)
  deriving DecidableEq, Repr

/-- How the playback-drain monitor resolves for a completed turn (server.py
532-551): the Twilio mark echo arrives (the mark handler in `receive_audio`
clears `is_agent_speaking`), or the caller speaks during the drain. -/
inductive DrainOutcome
  | markEcho
  | onsetDuringDrain
  deriving DecidableEq, Repr

/-- One iteration of the `process_speech` loop: the dequeued final
transcript together with how its race and playback drain resolve. -/
structure TurnScenario where
  transcript : String
  race : RaceOutcome
  drain : DrainOutcome
  deriving DecidableEq, Repr

/-- Branch selection in the race loop (server.py 480-506).  The interrupt
branch fires iff the speech waiter is done AND the response task is not
(`speech_waiter in done and response_task not in done`); otherwise, the
response task being done, the completion branch runs.  `true` arguments mean
the corresponding future was ready when `asyncio.wait` returned. -/
inductive RacePath
  | interrupt
  | completion
  deriving DecidableEq, Repr

def racePath (speechReady responseDone : Bool) : RacePath :=
  if speechReady && !responseDone then .interrupt else .completion

/-- The check at the top of a turn (server.py 379-384): if the agent is still
speaking (previous audio still draining in the Twilio buffer) when a new
final transcript arrives, the buffer is cleared and the flag dropped — with
no history rollback. -/
def entryInterrupt (s : CallState) : CallState :=
  if s.speaking then { s with events := s.events ++ [.clear], speaking := false }
  else s

/-- The body of one turn after the blank-transcript check and the entry
interrupt: take the checkpoint, set `is_agent_speaking`, run the race and
the drain monitor (server.py 386-551).
On `interrupted`: clear the Twilio buffer, cancel and await the response
task, truncate the history to the checkpoint, continue — no mark is emitted.
On `completed`: the appended entries stay, `response_counter` increments and
the mark of the turn is emitted; if the onset signal was already set when the race
resolved (`onsetSimul`) the drain monitor returns immediately and clears the
buffer, otherwise the drain resolves per the scenario — in neither drain
interrupt is the history rolled back. -/
def turnBody (s : CallState) (sc : TurnScenario) : CallState :=
  let checkpoint := s.history.length
  let s1 : CallState := { s with speaking := true }
  match sc.race with
  | .interrupted appended =>
      { s1 with
        events := s1.events ++ [.clear],
        history := (s1.history ++ appended).take checkpoint,
        speaking := false }
  | .completed appended onsetSimul =>
      let s2 : CallState := { s1 with history := s1.history ++ appended }
      let c := s2.counter + 1
      let s3 : CallState := { s2 with counter := c, events := s2.events ++ [.mark c] }
      if onsetSimul then { s3 with events := s3.events ++ [.clear], speaking := false }
      else
        match sc.drain with
        | .markEcho => { s3 with speaking := false }
        | .onsetDuringDrain =>
            { s3 with events := s3.events ++ [.clear], speaking := false }

/-- One iteration of the `process_speech` loop: blank transcripts are skipped
(server.py 374-375), then the entry interrupt and the turn body run. -/
def turnStep (s : CallState) (sc : TurnScenario) : CallState :=
  if pyStrip sc.transcript = "" then s
  else turnBody (entryInterrupt s) sc

/-- The greeting appended by `ai_agent.send_greeting` (ai_agent.py 80-91). -/
def greetingEntry : Entry :=
  { role := "assistant",
    content := "Hola, ha llamado al Centro de Medicina Regenerativa. Habla con Ana, ¿cómo puedo ayudarle?" }

/-- Call state right after the `start` event: the greeting was appended to
the history, its audio sent and the `greeting_end` mark (number 0) emitted,
and the agent is speaking (server.py 293-305). -/
def initialState : CallState :=
  { history := [greetingEntry], speaking := true, counter := 0,
    events := [.mark 0] }

/-- A whole call: the `process_speech` loop folded over the turns. -/
def runCall (scs : List TurnScenario) : CallState :=
  scs.foldl turnStep initialState

/-!
## Cooperative interleaving of the interrupt path with the response task
and its audio forwarder (server.py 480-491 racing
`_process_with_input_streaming`, lines 597-661)

The interrupt path is `await clear_twilio_audio(); speech_detected.clear();
response_task.cancel(); await response_task`.  The `await` inside
`clear_twilio_audio` is a suspension point of the cooperative scheduler, so
other tasks may run between the clear and the cancellation.  Moreover,
cancelling `response_task` does not reach the detached `audio_task`
directly: the `CancelledError` is delivered to the response task at its
next scheduled step, and it is the unwinding handler of the response task
(server.py 653-660) that then calls `audio_task.cancel()` and awaits it;
only after the audio task has unwound does the response task finish,
letting the controller resume from `await response_task`.  Until
`audio_task.cancel()` has been issued, the forwarder keeps sending queued
synthesis chunks to Twilio.
-/

/-- Program counter of the controller on the interrupt path. -/
inductive CtrlPc
  | clearStep
  | cancelStep
  | awaitStep
  | doneStep
  deriving DecidableEq, Repr

/-- The three concurrently scheduled parties of the interrupt path: the
controller, the response task being cancelled, and the detached audio
forwarder task created by `_process_with_input_streaming`. -/
inductive Who
  | ctrl
  | resp
  | fwd
  deriving DecidableEq, Repr

/-- Joint state of the controller interrupt path, the response task being
cancelled, and the audio forwarder of the cancelled turn.
`respCancelled` records that `response_task.cancel()` has been called
(server.py 486); `audioCancelled` that the unwinding handler of the
response task has called `audio_task.cancel()` (server.py 656);
`respFinished` and `audioFinished` that the corresponding task has finished
unwinding.  `pending` holds the synthesis chunks the forwarder still has
queued; every `media` event in `trace` belongs to the turn being
cancelled. -/
structure InterruptSys where
  pc : CtrlPc
  respCancelled : Bool
  audioCancelled : Bool
  respFinished : Bool
  audioFinished : Bool
  pending : List Nat
  trace : List TwilioEvent
  deriving DecidableEq, Repr

/-- One step of the controller on the interrupt path: emit the clear, call
`response_task.cancel()`, then `await response_task` — which resumes only
once the response task has finished unwinding. -/
def ctrlStep (s : InterruptSys) : InterruptSys :=
  match s.pc with
  | .clearStep => { s with trace := s.trace ++ [.clear], pc := .cancelStep }
  | .cancelStep => { s with respCancelled := true, pc := .awaitStep }
  | .awaitStep => if s.respFinished then { s with pc := .doneStep } else s
  | .doneStep => s

/-- One scheduled step of the response task.  Once `cancel()` has been
called on it, the `CancelledError` reaches it here; its unwinding handler
(server.py 653-660) first calls `audio_task.cancel()` — a synchronous call —
and then suspends awaiting the audio task; once the audio task has
finished, the response task finishes unwinding.  Its behaviour before
cancellation (the token-streaming loop) emits nothing on the Twilio channel
itself and is a no-op here. -/
def respStep (s : InterruptSys) : InterruptSys :=
  if s.respFinished then s
  else if s.respCancelled then
    if s.audioCancelled then
      if s.audioFinished then { s with respFinished := true } else s
    else { s with audioCancelled := true }
  else s

/-- One scheduled step of the detached `forward_audio` task: once
`audio_task.cancel()` has been issued by the unwinding response task, the
forwarder unwinds and finishes; otherwise it forwards the next queued chunk
to Twilio (or waits on the audio queue when none is pending).  It observes
only `audioCancelled`: cancelling the response task alone does not stop
it. -/
def fwdStep (s : InterruptSys) : InterruptSys :=
  if s.audioFinished then s
  else if s.audioCancelled then { s with audioFinished := true }
  else
    match s.pending with
    | [] => s
    | c :: rest => { s with trace := s.trace ++ [.media c], pending := rest }

/-- Dispatch one scheduled step to the chosen party. -/
def interruptStep (who : Who) (s : InterruptSys) : InterruptSys :=
  match who with
  | .ctrl => ctrlStep s
  | .resp => respStep s
  | .fwd => fwdStep s

/-- Run a cooperative schedule of the three tasks. -/
def interruptRun (sched : List Who) (s : InterruptSys) : InterruptSys :=
  sched.foldl (fun st who => interruptStep who st) s

/-- State at the moment the controller observes the onset and starts the
interrupt path, with `chunks` still queued in the forwarder. -/
def interruptInit (chunks : List Nat) : InterruptSys :=
  { pc := .clearStep, respCancelled := false, audioCancelled := false,
    respFinished := false, audioFinished := false,
    pending := chunks, trace := [] }

/-- The media chunks of an outbound trace, in emission order. -/
def mediaOf (evs : List TwilioEvent) : List Nat :=
  evs.filterMap fun e => match e with | .media c => some c | _ => none

/-!
## The inbound frame loop (server.py `receive_audio` lines 283-346)
-/

/-- One inbound Twilio frame, after JSON parsing: the four protocol events,
or a frame whose parsing raises (unparseable JSON or missing fields). -/
inductive InFrame
  | start (callSid streamSid : String)
  | media (payload : List Nat)
  | mark (name : String)
  | stop
  | malformed
  deriving DecidableEq, Repr

/-- The frames of the inbound loop that actually get processed, and whether
the outer exception handler logged an error.  The `try` block wraps the whole
`async for` (server.py 288-346), so the first frame whose parsing raises
propagates out of the loop body into the `except Exception` handler, which
logs and returns — ending frame processing for the session.  A `stop` frame
is processed and breaks the loop normally. -/
def receive_audio_frames : List InFrame → List InFrame × Bool
  | [] => ([], false)
  | .malformed :: _ => ([], true)
  | .stop :: _ => ([.stop], false)
  | f :: rest =>
      let (p, e) := receive_audio_frames rest
      (f :: p, e)

/-!
## The synthesis audio queue (voice_handler.py
`ElevenLabsInputStreamer._receive_audio` lines 295-310 and
`get_audio_chunks` lines 312-318)
-/

/-- One websocket message from the synthesis service, after JSON parsing:
an optional audio payload (absent or empty `audio` fields enqueue nothing)
and the `isFinal` flag. -/
structure TtsMsg where
  audio : Option (List Nat)
  isFinal : Bool
  deriving DecidableEq, Repr

/-- The audio payloads `_receive_audio` enqueues from a message stream: each
audio of each message is enqueued first, then `isFinal` breaks the loop. -/
def enqueueAudio : List TtsMsg → List (List Nat)
  | [] => []
  | m :: rest =>
      (match m.audio with | some a => [a] | none => []) ++
        (if m.isFinal then [] else enqueueAudio rest)

/-- How the receive loop of `_receive_audio` ends: it consumed its messages
to completion (`isFinal` break, or the connection closed, ending the
iterator), or an exception interrupted it after `k` messages. -/
inductive RecvExit
  | finished
  | errorAfter (k : Nat)
  deriving DecidableEq, Repr

/-- The full queue contents produced by `_receive_audio`: the enqueued audio
chunks, then — from the `finally` block, on every exit path — the `None`
sentinel. -/
def receiverQueue (msgs : List TtsMsg) (ex : RecvExit) :
    List (Option (List Nat)) :=
  match ex with
  | .finished => (enqueueAudio msgs).map some ++ [none]
  | .errorAfter k => (enqueueAudio (msgs.take k)).map some ++ [none]

/-- `get_audio_chunks`: yield queue items until the `None` sentinel.  (On the
empty list the real consumer would block on the queue; the receiver always
terminates the queue with the sentinel, as proved below.) -/
def get_audio_chunks : List (Option (List Nat)) → List (List Nat)
  | [] => []
  | none :: _ => []
  | some c :: rest => c :: get_audio_chunks rest

/-- A concrete collaborator behaviour used by the witnesses: for any
utterance the agent appends the user turn and one assistant turn, and the
synthesis session returns two audio chunks. -/
def exampleReply (u : String) : List Entry × List Nat :=
  ([{ role := "user", content := u },
    { role := "assistant", content := "Abrimos de nueve a cinco." }], [10, 11])

/-- Invariant carried through a call for the mark claims: the emitted mark
numbers are strictly increasing and all bounded by the response counter. -/
def MarkInv (s : CallState) : Prop :=
  (marksOf s.events).Pairwise (· < ·) ∧ ∀ m ∈ marksOf s.events, m ≤ s.counter

/-!
## Helper lemmas
-/

theorem marksOf_append (l m : List TwilioEvent) :
    marksOf (l ++ m) = marksOf l ++ marksOf m :=
  List.filterMap_append l m _

theorem entryInterrupt_history (s : CallState) :
    (entryInterrupt s).history = s.history := by
  unfold entryInterrupt; split <;> rfl

theorem entryInterrupt_counter (s : CallState) :
    (entryInterrupt s).counter = s.counter := by
  unfold entryInterrupt; split <;> rfl

theorem entryInterrupt_marks (s : CallState) :
    marksOf (entryInterrupt s).events = marksOf s.events := by
  unfold entryInterrupt; split <;> simp [marksOf_append, marksOf]

theorem markInv_entryInterrupt {s : CallState} (h : MarkInv s) :
    MarkInv (entryInterrupt s) := by
  unfold MarkInv at h ⊢
  rw [entryInterrupt_marks, entryInterrupt_counter]
  exact h

theorem turnBody_interrupted_events (s : CallState) (t : String)
    (ap : List Entry) (d : DrainOutcome) :
    (turnBody s ⟨t, .interrupted ap, d⟩).events = s.events ++ [.clear] ∧
      (turnBody s ⟨t, .interrupted ap, d⟩).counter = s.counter :=
  ⟨rfl, rfl⟩

theorem turnBody_completed_events (s : CallState) (t : String)
    (ap : List Entry) (simul : Bool) (d : DrainOutcome) :
    (turnBody s ⟨t, .completed ap simul, d⟩).counter = s.counter + 1 ∧
      ((turnBody s ⟨t, .completed ap simul, d⟩).events =
          s.events ++ [.mark (s.counter + 1), .clear] ∨
        (turnBody s ⟨t, .completed ap simul, d⟩).events =
          s.events ++ [.mark (s.counter + 1)]) := by
  cases simul with
  | true =>
      exact ⟨rfl, Or.inl (by simp [turnBody, List.append_assoc])⟩
  | false =>
      cases d with
      | markEcho => exact ⟨rfl, Or.inr rfl⟩
      | onsetDuringDrain =>
          exact ⟨rfl, Or.inl (by simp [turnBody, List.append_assoc])⟩

theorem markInv_complete {s1 : CallState} (hp : (marksOf s1.events).Pairwise (· < ·))
    (hb : ∀ m ∈ marksOf s1.events, m ≤ s1.counter) (extra : List TwilioEvent)
    (hm : marksOf extra = [s1.counter + 1]) :
    (marksOf (s1.events ++ extra)).Pairwise (· < ·) ∧
      ∀ m ∈ marksOf (s1.events ++ extra), m ≤ s1.counter + 1 := by
  rw [marksOf_append, hm]
  refine ⟨?_, ?_⟩
  · rw [List.pairwise_append]
    refine ⟨hp, List.pairwise_singleton _ _, ?_⟩
    intro a ha b hbm
    rw [List.mem_singleton] at hbm
    subst hbm
    exact Nat.lt_succ_of_le (hb a ha)
  · intro m hm'
    rcases List.mem_append.mp hm' with h1 | h2
    · exact Nat.le_succ_of_le (hb m h1)
    · rw [List.mem_singleton] at h2
      subst h2
      exact Nat.le_refl _

theorem markInv_turnStep {s : CallState} (sc : TurnScenario) (h : MarkInv s) :
    MarkInv (turnStep s sc) := by
  obtain ⟨t, race, d⟩ := sc
  unfold turnStep
  split
  · exact h
  · obtain ⟨hp, hb⟩ := markInv_entryInterrupt h
    set s1 := entryInterrupt s with hs1
    rcases race with ap | ⟨ap, simul⟩
    · obtain ⟨he, hc⟩ := turnBody_interrupted_events s1 t ap d
      unfold MarkInv
      rw [he, hc, marksOf_append]
      have hnil : marksOf [TwilioEvent.clear] = [] := rfl
      rw [hnil, List.append_nil]
      exact ⟨hp, hb⟩
    · obtain ⟨hc, he⟩ := turnBody_completed_events s1 t ap simul d
      unfold MarkInv
      rw [hc]
      rcases he with he | he <;> rw [he]
      · exact markInv_complete hp hb _ rfl
      · exact markInv_complete hp hb _ rfl

theorem markInv_foldl (scs : List TurnScenario) :
    ∀ s : CallState, MarkInv s → MarkInv (scs.foldl turnStep s) := by
  induction scs with
  | nil => exact fun s hs => hs
  | cons sc rest ih => exact fun s hs => ih _ (markInv_turnStep sc hs)

theorem markInv_initialState : MarkInv initialState := by
  constructor
  · decide
  · decide

theorem markInv_runCall (scs : List TurnScenario) : MarkInv (runCall scs) :=
  markInv_foldl scs initialState markInv_initialState

theorem get_audio_chunks_map_some (cs : List (List Nat)) :
    get_audio_chunks (cs.map some ++ [none]) = cs := by
  induction cs with
  | nil => rfl
  | cons c rest ih => simp [get_audio_chunks, ih]

/-!
## Claim theorems
-/

/-- C1 counterexample: a turn that completes and is then barged in during
playback drain (an interrupted turn in the AwaitingPlayback phase) keeps the
two entries the pipeline appended: the history afterwards has length 3 while
the pre-turn checkpoint recorded length 1, so the claimed equality fails for
drain interrupts.  The final clear event witnesses the barge-in. -/
theorem checkpoint_drain_interrupt_cex :
    (turnStep ⟨[greetingEntry], false, 0, [.mark 0]⟩
        ⟨"hola", .completed [⟨"user", "hola"⟩, ⟨"assistant", "Buenos dias."⟩] false,
          .onsetDuringDrain⟩).history.length = 3 ∧
    (⟨[greetingEntry], false, 0, [.mark 0]⟩ : CallState).history.length = 1 ∧
    (turnStep ⟨[greetingEntry], false, 0, [.mark 0]⟩
        ⟨"hola", .completed [⟨"user", "hola"⟩, ⟨"assistant", "Buenos dias."⟩] false,
          .onsetDuringDrain⟩).events = [.mark 0, .mark 1, .clear] := by
  decide

/-- C1 (amended): when the onset wins the race while the pipeline task is in
flight, the rollback restores the history to exactly its pre-turn checkpoint
state, so no partial assistant/tool entry of the aborted turn remains; when
the barge-in instead happens during playback drain (after the pipeline task
completed), the buffer is cleared but no rollback is performed and the
completed entries of the turn remain. -/
theorem checkpoint_rollback_amended (s : CallState) (t : String)
    (ap : List Entry) (simul : Bool) (d : DrainOutcome) :
    (turnStep s ⟨t, .interrupted ap, d⟩).history = s.history ∧
    (turnBody s ⟨t, .completed ap simul, d⟩).history = s.history ++ ap := by
  constructor
  · unfold turnStep
    split
    · rfl
    · have hbody : (turnBody (entryInterrupt s) ⟨t, .interrupted ap, d⟩).history =
          ((entryInterrupt s).history ++ ap).take (entryInterrupt s).history.length :=
        rfl
      rw [hbody, List.take_left, entryInterrupt_history]
  · cases simul with
    | false => cases d <;> rfl
    | true => rfl

/-- C2 counterexample: with the onset signal and the pipeline completion
ready in the same scheduling instant (both futures done), the branch guard
`speech_waiter in done and response_task not in done` is false, so the
completion path runs: the turn is committed (history keeps its entries, no
rollback) and its mark is emitted — the interrupt path is not taken. -/
theorem onset_priority_cex :
    racePath true true = RacePath.completion ∧
    marksOf (turnStep ⟨[greetingEntry], false, 0, [.mark 0]⟩
        ⟨"hola", .completed [⟨"user", "hola"⟩, ⟨"assistant", "Buenos dias."⟩] true,
          .markEcho⟩).events = [0, 1] ∧
    (turnStep ⟨[greetingEntry], false, 0, [.mark 0]⟩
        ⟨"hola", .completed [⟨"user", "hola"⟩, ⟨"assistant", "Buenos dias."⟩] true,
          .markEcho⟩).history.length = 3 := by
  decide

/-- C2 (amended): when the onset and the pipeline completion become ready
simultaneously, the controller takes the completion branch (the interrupt
guard requires the response task not to be done): the turn is committed, its
mark is emitted, and the still-set onset signal then immediately interrupts
the playback drain — the buffer is cleared with no rollback and the call
returns to Idle. -/
theorem onset_priority_amended (s : CallState) (t : String) (ap : List Entry)
    (d : DrainOutcome) :
    racePath true true = RacePath.completion ∧
    turnBody s ⟨t, .completed ap true, d⟩ =
      { history := s.history ++ ap, speaking := false, counter := s.counter + 1,
        events := s.events ++ [.mark (s.counter + 1), .clear] } := by
  refine ⟨rfl, ?_⟩
  simp [turnBody, List.append_assoc]

/-- C6: over any whole call, the mark numbers emitted on the outbound channel
(0 for `greeting_end`, n for `response_end_n`) are strictly increasing, hence
each identifier is emitted at most once and never reused; and a turn whose
race is interrupted emits no mark at all. -/
theorem mark_monotonic (scs : List TurnScenario) :
    (marksOf (runCall scs).events).Pairwise (· < ·) ∧
    (marksOf (runCall scs).events).Nodup ∧
    ∀ (s : CallState) (t : String) (ap : List Entry) (d : DrainOutcome),
      marksOf (turnStep s ⟨t, .interrupted ap, d⟩).events = marksOf s.events := by
  obtain ⟨hp, _⟩ := markInv_runCall scs
  refine ⟨hp, hp.imp Nat.ne_of_lt, ?_⟩
  intro s t ap d
  unfold turnStep
  split
  · rfl
  · obtain ⟨he, _⟩ := turnBody_interrupted_events (entryInterrupt s) t ap d
    rw [he, marksOf_append]
    have hnil : marksOf [TwilioEvent.clear] = [] := rfl
    rw [hnil, List.append_nil, entryInterrupt_marks]

/-- C3: when nonblank final transcript fragments are already queued at the
moment the first audio chunk of the reply is about to be sent, the pipeline
aborts before any audio reaches the caller, truncates the history back to
the pre-turn checkpoint, merges the fragments onto the original utterance
with single spaces, and restarts exactly once on a fresh synthesis session:
the result commits only the merged reply, its audio, and the next session
number — no audio of the reply to the unmerged fragment is sent. -/
theorem speculative_merge_guard (reply : String → List Entry × List Nat)
    (queue : List String) (history : List Entry) (transcript : String)
    (session : Nat) (hq : queue.filter (fun p => pyStrip p ≠ "") ≠ [])
    (hc : (reply transcript).2 ≠ []) :
    do_full_response ⟨reply, queue, none⟩ history transcript session =
      { history := history ++ (reply (transcript ++ " " ++
            String.intercalate " " (queue.filter fun p => pyStrip p ≠ ""))).1,
        audioSent := (reply (transcript ++ " " ++
            String.intercalate " " (queue.filter fun p => pyStrip p ≠ ""))).2,
        utterance := transcript ++ " " ++
            String.intercalate " " (queue.filter fun p => pyStrip p ≠ ""),
        session := session + 1 } := by
  rcases hct : reply transcript with ⟨e1, c1⟩
  rw [hct] at hc
  simp only at hc
  rcases c1 with _ | ⟨c, rest⟩
  · exact absurd rfl hc
  · have hnall : ¬ ∀ a ∈ queue, pyStrip a = "" := by
      intro hall
      exact hq (List.filter_eq_nil_iff.mpr fun a ha => by simp [hall a ha])
    simp [do_full_response, send_audio_guarded_run, hct, hnall, List.take_left]

/-- C3 witness: the spec scenario — the final `What are` starts the turn
with `your hours?` already queued when the first chunk is about to go; the
pipeline restarts once on session 1 with the merged utterance
`What are your hours?` and only the merged reply is committed and audible. -/
theorem speculative_merge_guard_witness :
    do_full_response ⟨exampleReply, ["your hours?"], none⟩ [greetingEntry]
        "What are" 0 =
      { history := [greetingEntry, ⟨"user", "What are your hours?"⟩,
          ⟨"assistant", "Abrimos de nueve a cinco."⟩],
        audioSent := [10, 11], utterance := "What are your hours?",
        session := 1 } := by
  have h := speculative_merge_guard exampleReply ["your hours?"] [greetingEntry]
    "What are" 0 (by decide) (by decide)
  exact h.trans (by decide)

/-- C8: when the synthesis socket closes mid-stream (`WsClosedError`), the
pipeline truncates the provisional entries of the turn back to the pre-turn
checkpoint, opens a replacement session (the next session number) and
reprocesses the same original utterance from the start; the recovery is
total — the turn produces a committed result and no exception escapes to end
the call. -/
theorem ws_retry_from_turn_start (reply : String → List Entry × List Nat)
    (queue : List String) (brokenEntries : List Entry) (history : List Entry)
    (transcript : String) (session : Nat) :
    do_full_response ⟨reply, queue, some brokenEntries⟩ history transcript
        session =
      { history := history ++ (reply transcript).1,
        audioSent := (reply transcript).2,
        utterance := transcript, session := session + 1 } ∧
    session + 1 ≠ session := by
  refine ⟨?_, Nat.succ_ne_self session⟩
  simp [do_full_response, List.take_left]

/-- C5 counterexample: on the input-streaming path the flush predicate is
any character of `.,!?;:\n` — a comma counts — so the increments
`Sure, `, `I can help. `, `Whats` (with an apostrophe) produce three submissions, the first
being the bare fragment `Sure, `: not two submissions, and never the merged
sentence `Sure, I can help.` claimed by the spec. -/
theorem sentence_flush_cex :
    streamSubmissions
        [.text "Sure, ", .text "I can help. ", .text "What\u0027s"] =
      ["Sure, ", "I can help. ", "What\u0027s"] ∧
    (streamSubmissions
        [.text "Sure, ", .text "I can help. ", .text "What\u0027s"]).length ≠ 2 ∧
    "Sure, I can help." ∉ streamSubmissions
        [.text "Sure, ", .text "I can help. ", .text "What\u0027s"] := by
  refine ⟨by decide, by decide, by decide⟩

/-- C5 (amended): the primary input-streaming path flushes on any
punctuation character of `.,!?;:\n` or once 15 characters accumulate, so
the given increments yield three submissions (`Sure, `, `I can help. `, then
the remainder at end-of-input); the claimed two-submission behaviour —
`Sure, I can help.` at the sentence boundary, then the remainder at
end-of-input — holds on the REST fallback path
(`_process_with_sentence_buffering`). -/
theorem sentence_flush_amended :
    streamSubmissions
        [.text "Sure, ", .text "I can help. ", .text "What\u0027s"] =
      ["Sure, ", "I can help. ", "What\u0027s"] ∧
    sentenceSubmissions
        [.text "Sure, ", .text "I can help. ", .text "What\u0027s"] =
      ["Sure, I can help.", "What\u0027s"] := by
  refine ⟨by decide, by decide⟩

theorem mediaOf_append (l m : List TwilioEvent) :
    mediaOf (l ++ m) = mediaOf l ++ mediaOf m :=
  List.filterMap_append l m _

theorem interruptStep_pcdone (who : Who) (s : InterruptSys)
    (h : s.pc = CtrlPc.doneStep → s.respFinished = true) :
    (interruptStep who s).pc = CtrlPc.doneStep →
      (interruptStep who s).respFinished = true := by
  cases who with
  | ctrl =>
      cases hpc : s.pc with
      | clearStep => simp [interruptStep, ctrlStep, hpc]
      | cancelStep => simp [interruptStep, ctrlStep, hpc]
      | awaitStep =>
          by_cases hr : s.respFinished <;> simp [interruptStep, ctrlStep, hpc, hr]
      | doneStep => simpa [interruptStep, ctrlStep, hpc] using h hpc
  | resp =>
      by_cases hrf : s.respFinished <;>
        by_cases hrc : s.respCancelled <;>
          by_cases hac : s.audioCancelled <;>
            by_cases haf : s.audioFinished <;>
              simpa [interruptStep, respStep, hrf, hrc, hac, haf] using h
  | fwd =>
      by_cases haf : s.audioFinished
      · simpa [interruptStep, fwdStep, haf] using h
      · by_cases hac : s.audioCancelled
        · simpa [interruptStep, fwdStep, haf, hac] using h
        · cases hp : s.pending <;>
            simpa [interruptStep, fwdStep, haf, hac, hp] using h

theorem interruptStep_respfin (who : Who) (s : InterruptSys)
    (h : s.respFinished = true → s.audioFinished = true) :
    (interruptStep who s).respFinished = true →
      (interruptStep who s).audioFinished = true := by
  cases who with
  | ctrl =>
      cases hpc : s.pc with
      | clearStep => simpa [interruptStep, ctrlStep, hpc] using h
      | cancelStep => simpa [interruptStep, ctrlStep, hpc] using h
      | awaitStep =>
          by_cases hr : s.respFinished <;>
            simpa [interruptStep, ctrlStep, hpc, hr] using h
      | doneStep => simpa [interruptStep, ctrlStep, hpc] using h
  | resp =>
      by_cases hrf : s.respFinished <;>
        by_cases hrc : s.respCancelled <;>
          by_cases hac : s.audioCancelled <;>
            by_cases haf : s.audioFinished <;>
              simpa [interruptStep, respStep, hrf, hrc, hac, haf] using h
  | fwd =>
      by_cases haf : s.audioFinished
      · simp [interruptStep, fwdStep, haf]
      · by_cases hac : s.audioCancelled
        · simp [interruptStep, fwdStep, haf, hac]
        · cases hp : s.pending <;>
            simpa [interruptStep, fwdStep, haf, hac, hp] using h

theorem interruptStep_media (who : Who) (s : InterruptSys)
    (h : s.audioFinished = true) :
    (interruptStep who s).audioFinished = true ∧
      mediaOf (interruptStep who s).trace = mediaOf s.trace := by
  cases who with
  | ctrl =>
      cases hpc : s.pc <;>
        by_cases hr : s.respFinished <;>
          simp [interruptStep, ctrlStep, hpc, hr, h, mediaOf_append, mediaOf]
  | resp =>
      by_cases hrf : s.respFinished <;>
        by_cases hrc : s.respCancelled <;>
          by_cases hac : s.audioCancelled <;>
            simp [interruptStep, respStep, hrf, hrc, hac, h]
  | fwd => simp [interruptStep, fwdStep, h]

/-- C4 counterexample: the clear is emitted, then `response_task.cancel()`
is called — yet the detached audio forwarder, which cancellation has not
reached (it propagates only through the unwinding handler of the response
task), still sends a media event of the turn being cancelled after both the
clear and the cancel; afterwards the unwinding handler cancels the audio
task, both tasks finish, and the controller completes its await. -/
theorem no_audio_after_clear_cex :
    (interruptRun [.ctrl, .ctrl] (interruptInit [7])).trace = [.clear] ∧
    (interruptRun [.ctrl, .ctrl] (interruptInit [7])).respCancelled = true ∧
    (interruptRun [.ctrl, .ctrl, .fwd, .resp, .fwd, .resp, .ctrl]
        (interruptInit [7])).trace = [.clear, .media 7] ∧
    (interruptRun [.ctrl, .ctrl, .fwd, .resp, .fwd, .resp, .ctrl]
        (interruptInit [7])).pc = CtrlPc.doneStep ∧
    (interruptRun [.ctrl, .ctrl, .fwd, .resp, .fwd, .resp, .ctrl]
        (interruptInit [7])).respFinished = true := by
  decide

/-- C4 (amended): the controller resumes from its await only once the
response task has finished unwinding, and the response task finishes only
after the audio forwarder has finished; once the forwarder has finished, no
further media of the cancelled turn is emitted under any cooperative
schedule.  The clear precedes the cancellation, and cancellation reaches
the forwarder only through the unwinding handler of the response task, so
media of the cancelled turn may still be sent after the clear and even
after `response_task.cancel()` — but none once the awaited teardown has
completed. -/
theorem no_audio_after_clear_amended (sched : List Who) (s : InterruptSys)
    (hdone : s.pc = CtrlPc.doneStep → s.respFinished = true)
    (hfin : s.respFinished = true → s.audioFinished = true) :
    ((interruptRun sched s).pc = CtrlPc.doneStep →
      (interruptRun sched s).respFinished = true) ∧
    ((interruptRun sched s).respFinished = true →
      (interruptRun sched s).audioFinished = true) ∧
    (s.audioFinished = true →
      mediaOf (interruptRun sched s).trace = mediaOf s.trace) := by
  induction sched generalizing s with
  | nil => exact ⟨hdone, hfin, fun _ => rfl⟩
  | cons who rest ih =>
      have h1 := interruptStep_pcdone who s hdone
      have h2 := interruptStep_respfin who s hfin
      have hrun : interruptRun (who :: rest) s =
          interruptRun rest (interruptStep who s) := rfl
      rw [hrun]
      refine ⟨(ih _ h1 h2).1, (ih _ h1 h2).2.1, fun haf => ?_⟩
      obtain ⟨haf2, hm2⟩ := interruptStep_media who s haf
      exact ((ih _ h1 h2).2.2 haf2).trans hm2

/-- C4 witness: a state in which the unwinding handler has already
cancelled the forwarder and the forwarder has finished (the trace holds the
clear and one media frame that slipped out before cancellation reached it):
the response task then finishes and the controller completes its await,
with no further media emitted. -/
theorem no_audio_after_clear_amended_witness :
    ((interruptRun [.resp, .ctrl]
        (⟨CtrlPc.awaitStep, true, true, false, true, [5],
          [TwilioEvent.clear, TwilioEvent.media 7]⟩ : InterruptSys)).pc =
          CtrlPc.doneStep →
      (interruptRun [.resp, .ctrl]
        (⟨CtrlPc.awaitStep, true, true, false, true, [5],
          [TwilioEvent.clear, TwilioEvent.media 7]⟩ : InterruptSys)).respFinished =
        true) ∧
    ((interruptRun [.resp, .ctrl]
        (⟨CtrlPc.awaitStep, true, true, false, true, [5],
          [TwilioEvent.clear, TwilioEvent.media 7]⟩ : InterruptSys)).respFinished =
        true →
      (interruptRun [.resp, .ctrl]
        (⟨CtrlPc.awaitStep, true, true, false, true, [5],
          [TwilioEvent.clear, TwilioEvent.media 7]⟩ : InterruptSys)).audioFinished =
        true) ∧
    ((⟨CtrlPc.awaitStep, true, true, false, true, [5],
        [TwilioEvent.clear, TwilioEvent.media 7]⟩ : InterruptSys).audioFinished =
        true →
      mediaOf (interruptRun [.resp, .ctrl]
          (⟨CtrlPc.awaitStep, true, true, false, true, [5],
            [TwilioEvent.clear, TwilioEvent.media 7]⟩ : InterruptSys)).trace =
        mediaOf
          (⟨CtrlPc.awaitStep, true, true, false, true, [5],
            [TwilioEvent.clear, TwilioEvent.media 7]⟩ : InterruptSys).trace) :=
  no_audio_after_clear_amended [.resp, .ctrl]
    ⟨CtrlPc.awaitStep, true, true, false, true, [5],
      [TwilioEvent.clear, TwilioEvent.media 7]⟩ (by decide) (by decide)

/-- C7 counterexample: a malformed frame between two media frames ends the
receive loop — the error is logged, but the media frame after it is never
processed, refuting the claim that only the malformed frame is dropped and
subsequent frames of the session continue to be processed. -/
theorem malformed_frame_cex :
    (receive_audio_frames [.media [1], .malformed, .media [2]]).1 =
      [.media [1]] ∧
    InFrame.media [2] ∉
      (receive_audio_frames [.media [1], .malformed, .media [2]]).1 ∧
    (receive_audio_frames [.media [1], .malformed, .media [2]]).2 = true := by
  decide

/-- C7 (amended): the first unparseable inbound frame is caught by the
handler wrapping the whole receive loop: the error is logged and no
exception propagates, every frame before it is processed, and no frame
after it is processed — inbound frame handling for the session stops at the
malformed frame instead of dropping just that frame. -/
theorem malformed_frame_amended (good rest : List InFrame)
    (h : ∀ f ∈ good, f ≠ InFrame.malformed ∧ f ≠ InFrame.stop) :
    receive_audio_frames (good ++ InFrame.malformed :: rest) = (good, true) := by
  induction good with
  | nil => rfl
  | cons f gs ih =>
      obtain ⟨hm, hs⟩ := h f (List.mem_cons_self f gs)
      have ih2 := ih fun g hg => h g (List.mem_cons_of_mem f hg)
      cases f with
      | start a b => simp [receive_audio_frames, ih2]
      | media p => simp [receive_audio_frames, ih2]
      | mark n => simp [receive_audio_frames, ih2]
      | stop => exact absurd rfl hs
      | malformed => exact absurd rfl hm

/-- C7 witness: a start and a media frame are processed, then a malformed
frame stops the loop with the error logged; the trailing media frame is not
processed. -/
theorem malformed_frame_amended_witness :
    receive_audio_frames
        ([.start "CA123" "MZ123", .media [1]] ++ InFrame.malformed :: [.media [2]]) =
      ([.start "CA123" "MZ123", .media [1]], true) :=
  malformed_frame_amended [.start "CA123" "MZ123", .media [1]] [.media [2]]
    (by decide)

/-- C9: per-frame characterisation of the VAD block.  While the agent is not
speaking no onset is ever emitted; while speaking, a frame whose RMS energy
over the decoded linear samples is at or below the threshold resets the
consecutive counter to zero, a high-energy frame increments it, and the
single onset signal fires (resetting the counter) exactly when the counter
reaches the required minimum of consecutive high-energy frames. -/
theorem vad_counter_characterisation (s : VadState) (frame : List Nat) :
    (s.speaking = false → vadStep s frame = ({ s with frames := 0 }, false)) ∧
    (s.speaking = true → audio_rms_exceeds frame = false →
      vadStep s frame = ({ s with frames := 0 }, false)) ∧
    (s.speaking = true → audio_rms_exceeds frame = true →
      s.frames + 1 < VAD_FRAMES_REQUIRED →
      vadStep s frame = ({ s with frames := s.frames + 1 }, false)) ∧
    (s.speaking = true → audio_rms_exceeds frame = true →
      VAD_FRAMES_REQUIRED ≤ s.frames + 1 →
      vadStep s frame = ({ speaking := false, frames := 0 }, true)) := by
  refine ⟨?_, ?_, ?_, ?_⟩ <;> intros <;> simp_all [vadStep]

/-- C9 witness: byte 0 decodes to the most negative sample, so a one-byte
frame of it is high energy; with the agent speaking and two prior
consecutive high-energy frames, the third fires the single onset and resets
the counter. -/
theorem vad_counter_characterisation_witness :
    ((⟨true, 2⟩ : VadState).speaking = true ∧ audio_rms_exceeds [0] = true ∧
      VAD_FRAMES_REQUIRED ≤ (⟨true, 2⟩ : VadState).frames + 1) ∧
    vadStep ⟨true, 2⟩ [0] = (⟨false, 0⟩, true) :=
  ⟨⟨by decide, by decide, by decide⟩,
    (vad_counter_characterisation ⟨true, 2⟩ [0]).2.2.2 (by decide) (by decide)
      (by decide)⟩

/-- C10: on every exit path of the background receiver — the isFinal break,
the connection closing, or an error after any number of messages — the
queue it produced ends with the `None` sentinel, and the chunk iterator
yields exactly the audio chunks enqueued before the sentinel and then
stops, so a consumer of the audio stream never waits on the queue once the
receiver has finished. -/
theorem tts_queue_sentinel (msgs : List TtsMsg) (ex : RecvExit) :
    (receiverQueue msgs ex).getLast? = some none ∧
    get_audio_chunks (receiverQueue msgs RecvExit.finished) =
      enqueueAudio msgs ∧
    ∀ k, get_audio_chunks (receiverQueue msgs (RecvExit.errorAfter k)) =
      enqueueAudio (msgs.take k) := by
  refine ⟨?_, ?_, ?_⟩
  · cases ex <;> exact List.getLast?_concat _
  · exact get_audio_chunks_map_some _
  · intro k
    exact get_audio_chunks_map_some _

end VoiceAgent
